import Mathlib

/-!
Verification development for the GeoSpark Project Financial Viability Engine.

The engine lives in `app/agents/cost_evaluation.py` (cost model, cash-flow
projection, NPV/IRR/LCOE/payback/ROI, sensitivity sweep), with further call
sites in `app/api/v1/router.py` (`evaluate_costs`) and `main.py`
(`calculate_realistic_metrics`).  The Python float arithmetic is modelled
over `ℚ` (exact real-number semantics); Python's `ZeroDivisionError` cases
are noted at the definitions where `ℚ`'s total division (`x / 0 = 0`)
diverges from the source.  The hidden `random.random()` sample consumed by
`calculate_realistic_metrics` is made an explicit parameter.
-/

namespace GeoSpark

/-- Mirrors the `ProjectPhase` enum of `cost_evaluation.py`. -/
inductive ProjectPhase
  | development
  | construction
  | operation
  | decommissioning
deriving DecidableEq

/-- Mirrors the `CostCategory` enum of `cost_evaluation.py`. -/
inductive CostCategory
  | capex
  | opex
  | financing
  | regulatory
  | insurance
  | maintenance
deriving DecidableEq

/-- Mirrors the `CostBreakdown` dataclass of `cost_evaluation.py`. -/
structure CostBreakdown where
  category : CostCategory
  amount_usd : ℚ
  percentage_of_total : ℚ
  description : String
  phase : ProjectPhase
  recurring : Bool
deriving DecidableEq

/-- `sum(cost.amount_usd for cost in breakdown)`. -/
def totalAmount (l : List CostBreakdown) : ℚ :=
  (l.map CostBreakdown.amount_usd).sum

/-- Sum of the `percentage_of_total` fields of a breakdown. -/
def percSum (l : List CostBreakdown) : ℚ :=
  (l.map CostBreakdown.percentage_of_total).sum

/-- The percentage-recomputation loop at the end of `_calculate_capex` and
`_calculate_opex`: `cost.percentage_of_total = (cost.amount_usd / total) * 100`.
(When the list is empty the loop body never runs, as in the source; a
nonempty list with zero total would raise `ZeroDivisionError` in Python,
while `ℚ` division yields 0 percentages.) -/
def withPercentages (l : List CostBreakdown) : List CostBreakdown :=
  let total := totalAmount l
  l.map fun c => { c with percentage_of_total := c.amount_usd / total * 100 }

/-- The per-technology CAPEX line items built by `_calculate_capex` before the
location multiplier is applied.  Unit costs come from the agent's
`solar_costs`, `wind_costs` and `hydro_costs` tables; any other technology
string matches no branch and yields the empty list. -/
def capexBase (project_type : String) (capacity_mw : ℚ) : List CostBreakdown :=
  if project_type = "solar" then
    let capacity_w := capacity_mw * 1000000
    [ ⟨.capex, capacity_w * (5/10), 0, "Solar panels and modules", .construction, false⟩,
      ⟨.capex, capacity_w * (15/100), 0, "Inverters and power electronics", .construction, false⟩,
      ⟨.capex, capacity_w * (10/100) + capacity_w * (25/100), 0,
        "Mounting systems and installation", .construction, false⟩,
      ⟨.capex, capacity_mw * 50000, 0, "Grid connection and interconnection", .construction, false⟩,
      ⟨.regulatory, capacity_mw * 10000 + capacity_mw * 15000, 0,
        "Permitting, engineering, and project development", .development, false⟩ ]
  else if project_type = "wind" then
    [ ⟨.capex, capacity_mw * 1200000, 0, "Wind turbines and generators", .construction, false⟩,
      ⟨.capex, capacity_mw * 200000, 0, "Turbine foundations and civil works", .construction, false⟩,
      ⟨.capex, capacity_mw * 150000 + capacity_mw * 200000, 0,
        "Electrical systems and installation", .construction, false⟩,
      ⟨.capex, capacity_mw * 100000, 0, "Grid connection and substation", .construction, false⟩,
      ⟨.regulatory, capacity_mw * 50000 + capacity_mw * 75000, 0,
        "Permitting, engineering, and project development", .development, false⟩ ]
  else if project_type = "hydro" then
    [ ⟨.capex, capacity_mw * 2000000, 0, "Hydroelectric turbines and generators", .construction, false⟩,
      ⟨.capex, capacity_mw * 3000000, 0, "Dams, penstocks, and civil infrastructure", .construction, false⟩,
      ⟨.capex, capacity_mw * 300000 + capacity_mw * 500000, 0,
        "Electrical systems and installation", .construction, false⟩,
      ⟨.capex, capacity_mw * 150000, 0, "Grid connection and substation", .construction, false⟩,
      ⟨.regulatory, capacity_mw * 100000 + capacity_mw * 200000, 0,
        "Permitting, engineering, and environmental studies", .development, false⟩ ]
  else []

/-- `_get_location_cost_multiplier`: step function of `distance_to_city_km`. -/
def locationCostMultiplier (distance_to_city_km : ℚ) : ℚ :=
  if distance_to_city_km > 100 then 13/10
  else if distance_to_city_km > 50 then 115/100
  else 1

/-- `_calculate_capex`: build the line items, scale each `amount_usd` by the
location multiplier, then recompute the percentages. -/
def calculateCapex (project_type : String) (capacity_mw distance_to_city_km : ℚ) :
    List CostBreakdown :=
  let m := locationCostMultiplier distance_to_city_km
  withPercentages ((capexBase project_type capacity_mw).map
    fun c => { c with amount_usd := c.amount_usd * m })

/-- The `base_opex_per_mw` dictionary lookup of `_calculate_opex`:
`{"solar": 15000, "wind": 25000, "hydro": 20000}.get(project_type, 20000)`. -/
def baseOpexPerMw (project_type : String) : ℚ :=
  if project_type = "solar" then 15000
  else if project_type = "wind" then 25000
  else if project_type = "hydro" then 20000
  else 20000

/-- The OPEX line items of `_calculate_opex` before percentages: O&M, insurance
(0.2% of a notional project value of 1,000,000 USD per MW), land lease,
administration.  Note `_calculate_opex` takes no location data. -/
def opexBase (project_type : String) (capacity_mw : ℚ) : List CostBreakdown :=
  [ ⟨.opex, capacity_mw * baseOpexPerMw project_type, 0,
      "Operations and maintenance", .operation, true⟩,
    ⟨.insurance, capacity_mw * 1000000 * (2/1000), 0,
      "Property and liability insurance", .operation, true⟩,
    ⟨.opex, capacity_mw * 2000, 0, "Land lease payments", .operation, true⟩,
    ⟨.opex, capacity_mw * 5000, 0, "Administrative and management costs", .operation, true⟩ ]

/-- `_calculate_opex`: the four line items with recomputed percentages. -/
def calculateOpex (project_type : String) (capacity_mw : ℚ) : List CostBreakdown :=
  withPercentages (opexBase project_type capacity_mw)

/-- `_calculate_annual_revenue`: `annual_generation_gwh * electricity_price_usd_mwh
+ annual_generation_gwh * rec_price_usd_mwh + capacity_mw * capacity_price_usd_mw`.
The generation figure is in GWh but is multiplied directly by a USD-per-MWh
price, exactly as in the source. -/
def calculateAnnualRevenue (capacity_mw annual_generation_gwh electricity_price_usd_mwh
    rec_price_usd_mwh capacity_price_usd_mw : ℚ) : ℚ :=
  annual_generation_gwh * electricity_price_usd_mwh
    + annual_generation_gwh * rec_price_usd_mwh
    + capacity_mw * capacity_price_usd_mw

/-- The revenue computation of `evaluate_costs` in `app/api/v1/router.py`:
`annual_generation_gwh * electricity_price * 1000  # Convert to USD`. -/
def routerAnnualRevenue (annual_generation_gwh electricity_price : ℚ) : ℚ :=
  annual_generation_gwh * electricity_price * 1000

/-- Follows the spec's words (section 4.2), for comparison with the code:
`annual_revenue = annual_generation_mwh × electricity_price`, plus optional REC
revenue (generation in MWh times REC price) and an optional flat capacity
payment (`capacity_mw × price/MW`). -/
def specAnnualRevenueMwh (capacity_mw annual_generation_mwh electricity_price_usd_mwh
    rec_price_usd_mwh capacity_price_usd_mw : ℚ) : ℚ :=
  annual_generation_mwh * electricity_price_usd_mwh
    + annual_generation_mwh * rec_price_usd_mwh
    + capacity_mw * capacity_price_usd_mw

/-- The NPV loop of `_calculate_financial_metrics`:
`npv = -total_capex; for year in range(1, N+1): npv += cf / (1+r)**year`. -/
def npvCalc (total_capex annual_cash_flow : ℚ) (project_lifetime : ℕ)
    (discount_rate : ℚ) : ℚ :=
  -total_capex + ∑ y in Finset.range project_lifetime,
    annual_cash_flow / (1 + discount_rate) ^ (y + 1)

/-- The NPV recomputed inside each Newton iteration of `_calculate_irr`. -/
def irrStepNpv (initial_investment annual_cash_flow : ℚ) (project_lifetime : ℕ)
    (rate : ℚ) : ℚ :=
  -initial_investment + ∑ y in Finset.range project_lifetime,
    annual_cash_flow / (1 + rate) ^ (y + 1)

/-- The NPV derivative accumulated inside each Newton iteration of
`_calculate_irr`: `npv_derivative -= year * cf / (1+rate)**(year+1)` for
`year` in `1..N`. -/
def irrStepDeriv (annual_cash_flow : ℚ) (project_lifetime : ℕ) (rate : ℚ) : ℚ :=
  -∑ y in Finset.range project_lifetime,
    ((y : ℚ) + 1) * annual_cash_flow / (1 + rate) ^ (y + 2)

/-- The Newton-Raphson loop of `_calculate_irr` with explicit fuel (the source
caps it at 100 iterations): stop when `|npv| < 1e-6`, else
`rate = rate - npv / npv_derivative`.  (A zero derivative would raise
`ZeroDivisionError` in Python; `ℚ` division by zero yields 0.) -/
def irrLoop (initial_investment annual_cash_flow : ℚ) (project_lifetime : ℕ) :
    ℕ → ℚ → ℚ
  | 0, rate => rate
  | fuel + 1, rate =>
    let npv := irrStepNpv initial_investment annual_cash_flow project_lifetime rate
    if |npv| < 1/1000000 then rate
    else irrLoop initial_investment annual_cash_flow project_lifetime fuel
      (rate - npv / irrStepDeriv annual_cash_flow project_lifetime rate)

/-- `_calculate_irr`: run the Newton loop from the initial guess 0.1 and
return `max(0, min(1, rate))`, clamping the result into [0, 1]. -/
def calculateIrr (initial_investment annual_cash_flow : ℚ)
    (project_lifetime : ℕ) : ℚ :=
  max 0 (min 1 (irrLoop initial_investment annual_cash_flow project_lifetime 100 (1/10)))

/-- The payback computation of `_calculate_financial_metrics`:
`payback_period = total_capex / annual_cash_flow`, with no guard on the sign
of the cash flow.  (Python raises `ZeroDivisionError` when the cash flow is
exactly 0; `ℚ` yields 0.) -/
def calculatePayback (total_capex annual_cash_flow : ℚ) : ℚ :=
  total_capex / annual_cash_flow

/-- `_calculate_lcoe`: discounted costs over discounted generation, where the
generation is back-derived from revenue as `annual_revenue / 50`
(`# Assume $50/MWh average price` in the source) and the result is 0 when the
discounted generation is not positive. -/
def calculateLcoe (total_capex total_opex annual_revenue : ℚ)
    (project_lifetime : ℕ) (discount_rate : ℚ) : ℚ :=
  let total_discounted_costs := total_capex + ∑ y in Finset.range project_lifetime,
    total_opex / (1 + discount_rate) ^ (y + 1)
  let annual_generation_gwh := annual_revenue / 50
  let total_discounted_generation := ∑ y in Finset.range project_lifetime,
    annual_generation_gwh / (1 + discount_rate) ^ (y + 1)
  if 0 < total_discounted_generation then
    total_discounted_costs / total_discounted_generation
  else 0

/-- Follows the spec's words (section 4.3), for comparison with the code:
`LCOE = (CAPEX + Σ OPEX_t/(1+r)^t) / (Σ Generation_t/(1+r)^t)` with
`Generation_t` the actual annual energy generated, constant per year. -/
def lcoeSpec (total_capex total_opex annual_generation : ℚ)
    (project_lifetime : ℕ) (discount_rate : ℚ) : ℚ :=
  (total_capex + ∑ t in Finset.range project_lifetime,
      total_opex / (1 + discount_rate) ^ (t + 1))
    / ∑ t in Finset.range project_lifetime,
      annual_generation / (1 + discount_rate) ^ (t + 1)

/-- Mirrors the `FinancialMetrics` dataclass of `cost_evaluation.py`. -/
structure FinancialMetrics where
  net_present_value_usd : ℚ
  internal_rate_of_return : ℚ
  payback_period_years : ℚ
  levelized_cost_of_energy_usd_mwh : ℚ
  return_on_investment : ℚ
  net_annual_cash_flow_usd : ℚ
deriving DecidableEq

/-- `_calculate_financial_metrics`: NPV, IRR, payback, LCOE and ROI from the
totals and the financial parameters. -/
def calculateFinancialMetrics (total_capex total_opex annual_revenue : ℚ)
    (project_lifetime : ℕ) (discount_rate : ℚ) : FinancialMetrics :=
  let annual_cash_flow := annual_revenue - total_opex
  let npv := npvCalc total_capex annual_cash_flow project_lifetime discount_rate
  let irr := calculateIrr total_capex annual_cash_flow project_lifetime
  let payback_period := calculatePayback total_capex annual_cash_flow
  let lcoe := calculateLcoe total_capex total_opex annual_revenue project_lifetime discount_rate
  let roi := (annual_revenue * (project_lifetime : ℚ) - total_capex
    - total_opex * (project_lifetime : ℚ)) / total_capex
  ⟨npv, irr, payback_period, lcoe, roi, annual_cash_flow⟩

/-- The slice of the `ProjectEconomics` dataclass that the deterministic
pipeline of `evaluate_project_costs` fills in. -/
structure ProjectEconomics where
  total_capex_usd : ℚ
  total_opex_usd : ℚ
  annual_revenue_usd : ℚ
  net_annual_cash_flow_usd : ℚ
  capex_breakdown : List CostBreakdown
  opex_breakdown : List CostBreakdown
  financial_metrics : FinancialMetrics
deriving DecidableEq

/-- `evaluate_project_costs`: CAPEX and OPEX breakdowns, revenue, and
financial metrics, composed exactly as in the agent. -/
def evaluateProjectCosts (project_type : String)
    (capacity_mw distance_to_city_km annual_generation_gwh electricity_price_usd_mwh
      rec_price_usd_mwh capacity_price_usd_mw : ℚ)
    (project_lifetime : ℕ) (discount_rate : ℚ) : ProjectEconomics :=
  let capex_breakdown := calculateCapex project_type capacity_mw distance_to_city_km
  let total_capex := totalAmount capex_breakdown
  let opex_breakdown := calculateOpex project_type capacity_mw
  let total_opex := totalAmount opex_breakdown
  let annual_revenue := calculateAnnualRevenue capacity_mw annual_generation_gwh
    electricity_price_usd_mwh rec_price_usd_mwh capacity_price_usd_mw
  let fm := calculateFinancialMetrics total_capex total_opex annual_revenue
    project_lifetime discount_rate
  ⟨total_capex, total_opex, annual_revenue, annual_revenue - total_opex,
    capex_breakdown, opex_breakdown, fm⟩

/-- The financial parameters touched by `_perform_sensitivity_analysis`. -/
structure SensParams where
  electricity_price_usd_mwh : ℚ
  discount_rate : ℚ
  annual_generation_gwh : ℚ
deriving DecidableEq

/-- `_calculate_simple_npv`: fixed CAPEX of 100,000,000 USD and fixed annual
OPEX of 5,000,000 USD, revenue from the parameters, 25 years. -/
def calculateSimpleNpv (p : SensParams) : ℚ :=
  let total_capex : ℚ := 100000000
  let annual_revenue := p.annual_generation_gwh * p.electricity_price_usd_mwh
  let annual_opex : ℚ := 5000000;
  -total_capex + ∑ y in Finset.range 25,
    (annual_revenue - annual_opex) / (1 + p.discount_rate) ^ (y + 1)

/-- The `variables` dictionary of `_perform_sensitivity_analysis`: the value
lists attached to each variable name. -/
def sensValues (varName : String) : List ℚ :=
  if varName = "electricity_price" then [8/10, 9/10, 1, 11/10, 12/10]
  else if varName = "discount_rate" then [6/100, 7/100, 8/100, 9/100, 10/100]
  else if varName = "capacity_factor" then [8/10, 9/10, 1, 11/10, 12/10]
  else []

/-- The per-multiplier parameter perturbation of
`_perform_sensitivity_analysis`: scale the one field that belongs to the
variable, leaving the others at baseline. -/
def perturbParams (p : SensParams) (varName : String) (m : ℚ) : SensParams :=
  if varName = "electricity_price" then
    { p with electricity_price_usd_mwh := p.electricity_price_usd_mwh * m }
  else if varName = "discount_rate" then
    { p with discount_rate := p.discount_rate * m }
  else if varName = "capacity_factor" then
    { p with annual_generation_gwh := p.annual_generation_gwh * m }
  else p

/-- One variable's row of `_perform_sensitivity_analysis`: the list of
`{"multiplier": m, "npv": ...}` entries. -/
def sensitivityTable (p : SensParams) (varName : String) : List (ℚ × ℚ) :=
  (sensValues varName).map fun m => (m, calculateSimpleNpv (perturbParams p varName m))

/-- The per-MW CAPEX rate of `evaluate_costs` in `router.py`: solar and wind
have their own rates, everything else silently gets 1,200,000 USD/MW. -/
def routerCapexPerMw (project_type : String) : ℚ :=
  if project_type = "solar" then 1000000
  else if project_type = "wind" then 1500000
  else 1200000

/-- The per-MW OPEX rate of `evaluate_costs` in `router.py`. -/
def routerOpexPerMw (project_type : String) : ℚ :=
  if project_type = "solar" then 15000
  else if project_type = "wind" then 25000
  else 20000

/-- The request fields consumed by `calculate_realistic_metrics` in `main.py`. -/
structure ReportRequest where
  capacity_mw : ℚ
  resource_type : String
  latitude : ℚ
  estimated_cost : Option ℚ
deriving DecidableEq

/-- Mirrors the `ReportMetrics` model of `main.py`. -/
structure ReportMetrics where
  npv : ℚ
  irr : ℚ
  payback : ℚ
  lcoe : ℚ
  annual_generation : ℚ
  capacity_factor : ℚ
  carbon_reduction : ℚ
deriving DecidableEq

/-- The `cost_per_mw` dictionary of `calculate_realistic_metrics`. -/
def reportCostPerMw (resource_type : String) : ℚ :=
  if resource_type = "solar" then 1200000
  else if resource_type = "wind" then 1800000
  else if resource_type = "hybrid" then 1500000
  else if resource_type = "hydro" then 2500000
  else 1200000

/-- The `base_capacity_factors` dictionary lookup with default 0.25 used in
the non-solar, non-wind branch of `calculate_realistic_metrics`. -/
def baseCapacityFactor (resource_type : String) : ℚ :=
  if resource_type = "solar" then 18/100
  else if resource_type = "wind" then 32/100
  else if resource_type = "hybrid" then 25/100
  else if resource_type = "hydro" then 45/100
  else 25/100

/-- `calculate_realistic_metrics` from `main.py`.  `randomSample` is the value
of the `random.random()` call the wind branch consumes (a hidden input of the
source made explicit here); every other branch ignores it.  Python's truthiness
test `if request.estimated_cost and ...` is modelled as `c ≠ 0 ∧ ...`. -/
def calculateRealisticMetrics (randomSample : ℚ) (request : ReportRequest) :
    ReportMetrics :=
  let capacity := request.capacity_mw
  let rt := request.resource_type
  let total_capex :=
    match request.estimated_cost with
    | some c => if c ≠ 0 ∧ capacity * 500000 ≤ c then c else capacity * reportCostPerMw rt
    | none => capacity * reportCostPerMw rt
  let lat := |request.latitude|
  let capacity_factor_raw :=
    if rt = "solar" then (18/100) * max (8/10) (12/10 - lat / 45)
    else if rt = "wind" then (32/100) * (9/10 + randomSample * (2/10))
    else baseCapacityFactor rt
  let capacity_factor := max (15/100) (min capacity_factor_raw (1/2))
  let annual_generation_mwh := capacity * capacity_factor * 8760
  let annual_generation_gwh := annual_generation_mwh / 1000
  let carbon_reduction := annual_generation_mwh * (6/10)
  let annual_revenue := annual_generation_mwh * 65
  let annual_opex := total_capex * (25/1000)
  let npv := -total_capex + ∑ y in Finset.range 25,
    (annual_revenue - annual_opex) / (1 + 7/100) ^ (y + 1)
  let irr := if 0 < total_capex ∧ 0 < annual_revenue - annual_opex then
    (annual_revenue - annual_opex) / total_capex else 12/100
  let annual_cash_flow := annual_revenue - annual_opex
  let payback := if 0 < annual_cash_flow then total_capex / annual_cash_flow else 25
  let total_generation_mwh := annual_generation_mwh * 25
  let lcoe := if 0 < total_generation_mwh then
    (total_capex + ∑ y in Finset.range 25, annual_opex / (1 + 7/100) ^ (y + 1))
      / total_generation_mwh
    else 80
  ⟨npv / 1000000,
    max (8/100) (min irr (25/100)),
    min payback 25,
    max 40 (min lcoe 120),
    annual_generation_gwh,
    capacity_factor,
    carbon_reduction⟩

/-- Modelled from the spec: the Viability Assessor of section 4.4 is not
present under `src/` (no scoring code exists in the repository), so its NPV
score is taken from the spec's words: greater than 50M scores 3, greater than
20M scores 2, greater than 0 scores 1, else 0. -/
def scoreNpv (npv : ℚ) : ℕ :=
  if 50000000 < npv then 3
  else if 20000000 < npv then 2
  else if 0 < npv then 1
  else 0

/-- Modelled from the spec: IRR score of the absent Viability Assessor
(section 4.4): greater than 15% scores 3, greater than 10% scores 2, greater
than 8% scores 1, else 0. -/
def scoreIrr (irr : ℚ) : ℕ :=
  if 15/100 < irr then 3
  else if 10/100 < irr then 2
  else if 8/100 < irr then 1
  else 0

/-- Modelled from the spec: payback score of the absent Viability Assessor
(section 4.4): under 10 years scores 3, under 15 scores 2, under 20 scores 1,
else 0, and an undefined payback scores 0. -/
def scorePayback : Option ℚ → ℕ
  | none => 0
  | some p => if p < 10 then 3 else if p < 15 then 2 else if p < 20 then 1 else 0

/-- Modelled from the spec: the additive total of the three section 4.4
scores. -/
def viabilityScore (npv irr : ℚ) (payback : Option ℚ) : ℕ :=
  scoreNpv npv + scoreIrr irr + scorePayback payback

/-- Modelled from the spec: the four verdict categories of section 3. -/
inductive ViabilityVerdict
  | highlyViable
  | viable
  | marginallyViable
  | notViable
deriving DecidableEq

/-- Modelled from the spec: the section 4.4 verdict map on the summed score:
at least 7 is Highly Viable, at least 5 Viable, at least 3 Marginally Viable,
else Not Viable. -/
def viabilityVerdict (npv irr : ℚ) (payback : Option ℚ) : ViabilityVerdict :=
  let s := viabilityScore npv irr payback
  if 7 ≤ s then .highlyViable
  else if 5 ≤ s then .viable
  else if 3 ≤ s then .marginallyViable
  else .notViable

/-- The amounts of a breakdown are untouched by the percentage pass. -/
theorem map_amount_withPercentages (l : List CostBreakdown) :
    (withPercentages l).map CostBreakdown.amount_usd = l.map CostBreakdown.amount_usd := by
  simp only [withPercentages, List.map_map]
  rfl

/-- The total of a breakdown is untouched by the percentage pass. -/
theorem totalAmount_withPercentages (l : List CostBreakdown) :
    totalAmount (withPercentages l) = totalAmount l := by
  simp only [totalAmount, map_amount_withPercentages]

/-- Scaling every amount by `m` scales the total by `m`. -/
theorem totalAmount_map_scale (m : ℚ) (l : List CostBreakdown) :
    totalAmount (l.map fun c => { c with amount_usd := c.amount_usd * m })
      = totalAmount l * m := by
  induction l with
  | nil => simp [totalAmount]
  | cons a t ih =>
    simp only [totalAmount, List.map_cons, List.sum_cons] at ih ⊢
    rw [ih]; ring

/-- The percentage pass with a fixed denominator sums the percentages to
`total / T * 100`. -/
theorem percSum_set_over (T : ℚ) (l : List CostBreakdown) :
    percSum (l.map fun c => { c with percentage_of_total := c.amount_usd / T * 100 })
      = totalAmount l / T * 100 := by
  induction l with
  | nil => simp [percSum, totalAmount]
  | cons a t ih =>
    simp only [percSum, totalAmount, List.map_cons, List.sum_cons] at ih ⊢
    rw [ih]; ring

/-- When the total is nonzero, the recomputed percentages sum to exactly 100. -/
theorem percSum_withPercentages (l : List CostBreakdown) (h : totalAmount l ≠ 0) :
    percSum (withPercentages l) = 100 := by
  unfold withPercentages
  rw [percSum_set_over, div_self h, one_mul]

/-- The location multiplier is one of 1, 1.15, 1.3, hence positive. -/
theorem locationCostMultiplier_pos (d : ℚ) : 0 < locationCostMultiplier d := by
  unfold locationCostMultiplier
  split_ifs <;> norm_num

/-- Every technology, recognized or not, gets a positive base OPEX rate. -/
theorem baseOpexPerMw_pos (t : String) : 0 < baseOpexPerMw t := by
  unfold baseOpexPerMw
  split_ifs <;> norm_num

/-- Closed form for the OPEX total before percentages. -/
theorem totalAmount_opexBase (t : String) (c : ℚ) :
    totalAmount (opexBase t c) = c * (baseOpexPerMw t + 9000) := by
  simp only [opexBase, totalAmount, List.map_cons, List.map_nil, List.sum_cons,
    List.sum_nil]
  ring

/-- The amounts of `_calculate_capex` are the base amounts scaled by the
location multiplier. -/
theorem map_amount_calculateCapex (t : String) (cap d : ℚ) :
    (calculateCapex t cap d).map CostBreakdown.amount_usd
      = (capexBase t cap).map fun c => c.amount_usd * locationCostMultiplier d := by
  simp only [calculateCapex]
  rw [map_amount_withPercentages, List.map_map]
  rfl

/-- The CAPEX total is the base total scaled by the location multiplier. -/
theorem totalAmount_calculateCapex (t : String) (cap d : ℚ) :
    totalAmount (calculateCapex t cap d)
      = totalAmount (capexBase t cap) * locationCostMultiplier d := by
  simp only [calculateCapex]
  rw [totalAmount_withPercentages, totalAmount_map_scale]

/-- C1: the claim says annual revenue is generation in MWh times the USD/MWh
price (plus REC and capacity terms) with one consistent unit at every call
site.  At generation 200 GWh (200,000 MWh) and price 50 USD/MWh the agent's
`_calculate_annual_revenue` multiplies the GWh figure directly by the
USD-per-MWh price and returns 10,000 USD, 1000 times less than the
MWh-consistent 10,000,000 USD, while the router's `evaluate_costs` converts
with the factor 1000 and returns 10,000,000 USD: the two call sites disagree
and the agent's value is not the MWh-based revenue. -/
theorem C1_agent_revenue_gwh_mwh_mismatch :
    calculateAnnualRevenue 100 200 50 0 0 = 10000 ∧
    routerAnnualRevenue 200 50 = 10000000 ∧
    calculateAnnualRevenue 100 200 50 0 0 ≠ specAnnualRevenueMwh 100 (200 * 1000) 50 0 0 ∧
    calculateAnnualRevenue 100 200 50 0 0 ≠ routerAnnualRevenue 200 50 := by
  refine ⟨?_, ?_, ?_, ?_⟩ <;>
    norm_num [calculateAnnualRevenue, routerAnnualRevenue, specAnnualRevenueMwh]

/-- C2: the claim says that when annual net cash flow is nonpositive the
engine reports IRR and payback as explicitly undefined.  With CAPEX
100,000,000, OPEX 7,000,000 and revenue 5,000,000 (net cash flow
−2,000,000), `_calculate_financial_metrics` instead returns the negative
payback −50 years from the unguarded division `total_capex /
annual_cash_flow`, and `_calculate_irr` always returns a plain number clamped
into [0, 1] by its final `max(0, min(1, rate))`, never an undefined
sentinel. -/
theorem C2_payback_negative_irr_clamped :
    calculatePayback 100000000 (5000000 - 7000000) = -50 ∧
    0 ≤ calculateIrr 100000000 (5000000 - 7000000) 25 ∧
    calculateIrr 100000000 (5000000 - 7000000) 25 ≤ 1 := by
  refine ⟨by norm_num [calculatePayback], ?_, ?_⟩
  · unfold calculateIrr
    exact le_max_left _ _
  · unfold calculateIrr
    exact max_le (by norm_num) (min_le_left _ _)

/-- C3: the viability verdict is computed by the additive scoring rule: each
of the three scores is at most 3 (an undefined payback scoring 0), the total
is at most 9, and the verdict is exactly the one of the four categories
picked out by the thresholds 7, 5 and 3 on the total. -/
theorem C3_viability_scoring_rule (npv irr : ℚ) (payback : Option ℚ) :
    scoreNpv npv ≤ 3 ∧ scoreIrr irr ≤ 3 ∧ scorePayback payback ≤ 3 ∧
    viabilityScore npv irr payback ≤ 9 ∧
    (viabilityVerdict npv irr payback = .highlyViable ↔
      7 ≤ viabilityScore npv irr payback) ∧
    (viabilityVerdict npv irr payback = .viable ↔
      5 ≤ viabilityScore npv irr payback ∧ viabilityScore npv irr payback < 7) ∧
    (viabilityVerdict npv irr payback = .marginallyViable ↔
      3 ≤ viabilityScore npv irr payback ∧ viabilityScore npv irr payback < 5) ∧
    (viabilityVerdict npv irr payback = .notViable ↔
      viabilityScore npv irr payback < 3) := by
  have hn : scoreNpv npv ≤ 3 := by unfold scoreNpv; split_ifs <;> norm_num
  have hi : scoreIrr irr ≤ 3 := by unfold scoreIrr; split_ifs <;> norm_num
  have hp : scorePayback payback ≤ 3 := by
    cases payback with
    | none => simp [scorePayback]
    | some p => simp only [scorePayback]; split_ifs <;> norm_num
  have ht : viabilityScore npv irr payback ≤ 9 := by
    unfold viabilityScore; omega
  refine ⟨hn, hi, hp, ht, ?_, ?_, ?_, ?_⟩ <;>
    · simp only [viabilityVerdict]
      split_ifs <;> simp_all <;> omega

/-- C4: the location multiplier scales every CAPEX line item uniformly after
the items are computed (the amounts of the produced breakdown are exactly the
base amounts each multiplied by the multiplier), the total CAPEX at distance
150 km is exactly 1.30 times the total at 10 km for every technology and
capacity, and the OPEX breakdown of a full evaluation does not depend on the
distance at all. -/
theorem C4_location_multiplier_uniform (project_type : String)
    (capacity_mw gen price rec capprice : ℚ) (N : ℕ) (r : ℚ) :
    totalAmount (calculateCapex project_type capacity_mw 150)
      = 13/10 * totalAmount (calculateCapex project_type capacity_mw 10) ∧
    (∀ d, (calculateCapex project_type capacity_mw d).map CostBreakdown.amount_usd
      = (capexBase project_type capacity_mw).map
          fun c => c.amount_usd * locationCostMultiplier d) ∧
    (∀ d d', (evaluateProjectCosts project_type capacity_mw d gen price rec capprice
        N r).opex_breakdown
      = (evaluateProjectCosts project_type capacity_mw d' gen price rec capprice
        N r).opex_breakdown) := by
  refine ⟨?_, fun d => map_amount_calculateCapex project_type capacity_mw d,
    fun d d' => rfl⟩
  rw [totalAmount_calculateCapex, totalAmount_calculateCapex]
  have h150 : locationCostMultiplier 150 = 13/10 := by norm_num [locationCostMultiplier]
  have h10 : locationCostMultiplier 10 = 1 := by norm_num [locationCostMultiplier]
  rw [h150, h10]
  ring

/-- C5 counterexample: the claim asserts strict NPV decrease in the discount
rate for every fixed cash-flow series, but with a zero annual cash flow the
NPV of `_calculate_financial_metrics` is the constant −CAPEX: at rates
0.05 < 0.08 the two NPVs are equal, not strictly ordered. -/
theorem C5_zero_cashflow_npv_constant :
    (1/20 : ℚ) < 2/25 ∧ (-1 : ℚ) < 1/20 ∧
    npvCalc 100 0 5 (1/20) = npvCalc 100 0 5 (2/25) ∧
    ¬ npvCalc 100 0 5 (2/25) < npvCalc 100 0 5 (1/20) := by
  refine ⟨by norm_num, by norm_num, ?_, ?_⟩ <;> simp [npvCalc]

/-- C5 amended: for a strictly positive annual cash flow and a lifetime of at
least one year, the NPV of `_calculate_financial_metrics` is strictly
decreasing in the discount rate on rates above −1. -/
theorem C5_npv_strictly_decreasing (capex cf : ℚ) (N : ℕ) (r1 r2 : ℚ)
    (hcf : 0 < cf) (hN : 1 ≤ N) (h1 : -1 < r1) (h12 : r1 < r2) :
    npvCalc capex cf N r2 < npvCalc capex cf N r1 := by
  unfold npvCalc
  have hb1 : (0 : ℚ) < 1 + r1 := by linarith
  have hsum : ∑ y in Finset.range N, cf / (1 + r2) ^ (y + 1)
      < ∑ y in Finset.range N, cf / (1 + r1) ^ (y + 1) := by
    apply Finset.sum_lt_sum_of_nonempty (Finset.nonempty_range_iff.mpr (by omega))
    intro i _
    have hpow : (1 + r1) ^ (i + 1) < (1 + r2) ^ (i + 1) :=
      pow_lt_pow_left₀ (by linarith) (by linarith) (Nat.succ_ne_zero i)
    exact div_lt_div_of_pos_left hcf (pow_pos hb1 (i + 1)) hpow
  linarith

/-- C5 witness: the amended monotonicity at CAPEX 100, cash flow 10, two
years, rates 0 < 0.1. -/
theorem C5_npv_strictly_decreasing_witness :
    (0 : ℚ) < 10 ∧ (1 : ℕ) ≤ 2 ∧ (-1 : ℚ) < 0 ∧ (0 : ℚ) < 1/10 ∧
    npvCalc 100 10 2 (1/10) < npvCalc 100 10 2 0 :=
  ⟨by norm_num, by norm_num, by norm_num, by norm_num,
    C5_npv_strictly_decreasing 100 10 2 0 (1/10) (by norm_num) (by norm_num)
      (by norm_num) (by norm_num)⟩

/-- C6 counterexample: the claim says the returned LCOE uses the project's
actual annual generation for every electricity price.  Take CAPEX 1000, zero
OPEX, one year, zero discount rate, actual generation 10 sold at 100 USD per
unit (revenue 1000): `_calculate_lcoe` back-derives the generation as
`annual_revenue / 50 = 20` and returns 50, while the spec's formula with the
actual generation 10 gives 100. -/
theorem C6_lcoe_uses_assumed_price :
    calculateLcoe 1000 0 1000 1 0 = 50 ∧
    lcoeSpec 1000 0 10 1 0 = 100 ∧
    calculateLcoe 1000 0 1000 1 0 ≠ lcoeSpec 1000 0 10 1 0 := by
  refine ⟨?_, ?_, ?_⟩ <;>
    norm_num [calculateLcoe, lcoeSpec, Finset.sum_range_succ]

/-- C6 amended: the returned LCOE equals the spec's discounted-cost over
discounted-generation formula with the generation taken to be
`annual_revenue / 50` — hence it agrees with the actual generation exactly
when the revenue equals 50 USD/MWh times the generation (and the discounted
generation is positive). -/
theorem C6_lcoe_revenue_over_fifty (capex opex rev gen : ℚ) (N : ℕ) (r : ℚ)
    (hrev : rev = 50 * gen)
    (hpos : 0 < ∑ t in Finset.range N, gen / (1 + r) ^ (t + 1)) :
    calculateLcoe capex opex rev N r = lcoeSpec capex opex gen N r := by
  subst hrev
  have hg : (50 : ℚ) * gen / 50 = gen := by ring
  simp only [calculateLcoe, lcoeSpec, hg]
  rw [if_pos hpos]

/-- C6 witness: revenue 1000 equals 50 times generation 20, and there the
code's LCOE coincides with the spec formula. -/
theorem C6_lcoe_revenue_over_fifty_witness :
    (1000 : ℚ) = 50 * 20 ∧
    (0 : ℚ) < ∑ t in Finset.range 1, (20 : ℚ) / (1 + 0) ^ (t + 1) ∧
    calculateLcoe 1000 0 1000 1 0 = lcoeSpec 1000 0 20 1 0 :=
  ⟨by norm_num, by norm_num [Finset.sum_range_succ],
    C6_lcoe_revenue_over_fifty 1000 0 1000 20 1 0 (by norm_num)
      (by norm_num [Finset.sum_range_succ])⟩

/-- C7 counterexample: the claim says an unrecognized technology (or
nonpositive capacity) fails with an `InvalidProjectSpec` error and never gets
a generic per-MW rate.  For the unrecognized technology string "geothermal"
at 100 MW the agent instead returns a complete OPEX breakdown built from the
generic 20,000 USD/MW/yr default (total 2,900,000 USD), the router prices it
at the generic 1,200,000 USD/MW CAPEX rate, and a negative capacity of −5 MW
flows through `_calculate_capex` to a negative CAPEX total with no error. -/
theorem C7_unknown_technology_defaulted :
    totalAmount (calculateOpex "geothermal" 100) = 2900000 ∧
    routerCapexPerMw "geothermal" = 1200000 ∧
    routerOpexPerMw "geothermal" = 20000 ∧
    totalAmount (calculateCapex "solar" (-5) 10) = -5375000 := by
  refine ⟨?_, by simp [routerCapexPerMw], by simp [routerOpexPerMw], ?_⟩
  · rw [calculateOpex, totalAmount_withPercentages, totalAmount_opexBase]
    simp [baseOpexPerMw]
    norm_num
  · rw [totalAmount_calculateCapex]
    simp [capexBase, totalAmount, locationCostMultiplier]
    norm_num

/-- C7 amended: every technology string outside {solar, wind, hydro} is
silently priced: the agent's OPEX uses the generic 20,000 USD/MW/yr base
(total 29,000 USD per MW once insurance, land and administration are added)
while its CAPEX breakdown is empty, and the router falls back to the generic
1,200,000 USD/MW CAPEX and 20,000 USD/MW/yr OPEX rates; no input is ever
rejected. -/
theorem C7_generic_rate_fallback (project_type : String) (capacity_mw : ℚ)
    (h : project_type ∉ (["solar", "wind", "hydro"] : List String)) :
    totalAmount (calculateOpex project_type capacity_mw) = capacity_mw * 29000 ∧
    capexBase project_type capacity_mw = [] ∧
    routerCapexPerMw project_type = 1200000 ∧
    routerOpexPerMw project_type = 20000 := by
  simp only [List.mem_cons, List.not_mem_nil, or_false, not_or] at h
  obtain ⟨hs, hw, hh⟩ := h
  refine ⟨?_, ?_, ?_, ?_⟩
  · rw [calculateOpex, totalAmount_withPercentages, totalAmount_opexBase]
    rw [baseOpexPerMw, if_neg hs, if_neg hw, if_neg hh]
    ring
  · rw [capexBase, if_neg hs, if_neg hw, if_neg hh]
  · rw [routerCapexPerMw, if_neg hs, if_neg hw]
  · rw [routerOpexPerMw, if_neg hs, if_neg hw]

/-- C7 witness: the generic fallback at technology "geothermal", 100 MW. -/
theorem C7_generic_rate_fallback_witness :
    ("geothermal" ∉ (["solar", "wind", "hydro"] : List String)) ∧
    totalAmount (calculateOpex "geothermal" 100) = 100 * 29000 ∧
    capexBase "geothermal" 100 = [] ∧
    routerCapexPerMw "geothermal" = 1200000 ∧
    routerOpexPerMw "geothermal" = 20000 :=
  ⟨by decide, (C7_generic_rate_fallback "geothermal" 100 (by decide)).1,
    (C7_generic_rate_fallback "geothermal" 100 (by decide)).2.1,
    (C7_generic_rate_fallback "geothermal" 100 (by decide)).2.2.1,
    (C7_generic_rate_fallback "geothermal" 100 (by decide)).2.2.2⟩

/-- Perturbing any sensitivity variable by the multiplier 1 leaves the
parameters unchanged. -/
theorem perturbParams_one (p : SensParams) (v : String) : perturbParams p v 1 = p := by
  obtain ⟨a, b, c⟩ := p
  unfold perturbParams
  split_ifs <;> simp

/-- C8 counterexample: the claim says every one of the three variables is
swept at exactly the multipliers {0.8, 0.9, 1.0, 1.1, 1.2}.  The
`variables` dictionary of `_perform_sensitivity_analysis` instead attaches
the absolute rate values {0.06, 0.07, 0.08, 0.09, 0.10} to `discount_rate`
and multiplies the baseline rate by them, so the discount-rate row of the
table (here at baseline price 50, rate 0.08, generation 200) carries those
values and contains no multiplier 1.0 entry. -/
theorem C8_discount_rate_not_multipliers :
    (sensitivityTable ⟨50, 8/100, 200⟩ "discount_rate").map Prod.fst
      = [6/100, 7/100, 8/100, 9/100, 10/100] ∧
    (1 : ℚ) ∉ (sensitivityTable ⟨50, 8/100, 200⟩ "discount_rate").map Prod.fst := by
  have hfst : (sensitivityTable ⟨50, 8/100, 200⟩ "discount_rate").map Prod.fst
      = [6/100, 7/100, 8/100, 9/100, 10/100] := by
    simp [sensitivityTable, sensValues, List.map_map]
  refine ⟨hfst, ?_⟩
  rw [hfst]
  norm_num [List.mem_cons]

/-- C8 amended: the electricity-price and capacity-factor rows are swept at
the multipliers {0.8, 0.9, 1.0, 1.1, 1.2} while the discount-rate row is
swept at {0.06, ..., 0.10}, every NPV entry comes from
`_calculate_simple_npv` (fixed 100M CAPEX, 5M OPEX — not the project's own
valuation), and the 1.0 entries of the two multiplier-swept rows carry the
unperturbed `_calculate_simple_npv` baseline. -/
theorem C8_sensitivity_rows (p : SensParams) :
    (sensitivityTable p "electricity_price").map Prod.fst
      = [8/10, 9/10, 1, 11/10, 12/10] ∧
    (sensitivityTable p "capacity_factor").map Prod.fst
      = [8/10, 9/10, 1, 11/10, 12/10] ∧
    (sensitivityTable p "discount_rate").map Prod.fst
      = [6/100, 7/100, 8/100, 9/100, 10/100] ∧
    (1, calculateSimpleNpv p) ∈ sensitivityTable p "electricity_price" ∧
    (1, calculateSimpleNpv p) ∈ sensitivityTable p "capacity_factor" := by
  refine ⟨?_, ?_, ?_, ?_, ?_⟩
  · simp [sensitivityTable, sensValues, List.map_map]
  · simp [sensitivityTable, sensValues, List.map_map]
  · simp [sensitivityTable, sensValues, List.map_map]
  · exact List.mem_map.mpr ⟨1, by simp [sensValues], by simp [perturbParams_one]⟩
  · exact List.mem_map.mpr ⟨1, by simp [sensValues], by simp [perturbParams_one]⟩

/-- `_calculate_capex` percentages sum to 100 whenever the pre-multiplier
total is nonzero. -/
theorem percSum_calculateCapex_of_base_ne (t : String) (cap d : ℚ)
    (h : totalAmount (capexBase t cap) ≠ 0) :
    percSum (calculateCapex t cap d) = 100 := by
  simp only [calculateCapex]
  apply percSum_withPercentages
  rw [totalAmount_map_scale]
  exact mul_ne_zero h (ne_of_gt (locationCostMultiplier_pos d))

/-- C9 counterexample: the claim quantifies over any technology, but for the
technology string "hybrid" (which has no branch in `_calculate_capex`) the
produced CAPEX breakdown is empty, so its percentages sum to 0, not 100. -/
theorem C9_hybrid_capex_percentages_zero :
    calculateCapex "hybrid" 100 10 = [] ∧
    percSum (calculateCapex "hybrid" 100 10) = 0 ∧
    percSum (calculateCapex "hybrid" 100 10) ≠ 100 := by
  have h : calculateCapex "hybrid" 100 10 = [] := by
    simp [calculateCapex, capexBase, withPercentages]
  refine ⟨h, ?_, ?_⟩ <;> rw [h] <;> simp [percSum]

/-- C9 amended: for each technology that has a CAPEX table (solar, wind,
hydro) and positive capacity, the CAPEX line-item percentages sum to exactly
100 after the location multiplier is applied, and the OPEX percentages sum to
exactly 100 for every technology string with positive capacity. -/
theorem C9_percentage_closure (project_type : String) (capacity_mw d : ℚ)
    (hcap : 0 < capacity_mw) :
    ((project_type = "solar" ∨ project_type = "wind" ∨ project_type = "hydro") →
      percSum (calculateCapex project_type capacity_mw d) = 100) ∧
    percSum (calculateOpex project_type capacity_mw) = 100 := by
  constructor
  · intro htech
    rcases htech with h | h | h <;> subst h <;>
      apply percSum_calculateCapex_of_base_ne
    · have hb : totalAmount (capexBase "solar" capacity_mw)
          = 1075000 * capacity_mw := by
        simp [capexBase, totalAmount]; ring
      rw [hb]
      exact ne_of_gt (mul_pos (by norm_num) hcap)
    · have hb : totalAmount (capexBase "wind" capacity_mw)
          = 1975000 * capacity_mw := by
        simp [capexBase, totalAmount]; ring
      rw [hb]
      exact ne_of_gt (mul_pos (by norm_num) hcap)
    · have hb : totalAmount (capexBase "hydro" capacity_mw)
          = 6250000 * capacity_mw := by
        simp [capexBase, totalAmount]; ring
      rw [hb]
      exact ne_of_gt (mul_pos (by norm_num) hcap)
  · rw [calculateOpex]
    apply percSum_withPercentages
    rw [totalAmount_opexBase]
    have hpos : (0 : ℚ) < baseOpexPerMw project_type + 9000 := by
      linarith [baseOpexPerMw_pos project_type]
    exact ne_of_gt (mul_pos hcap hpos)

/-- C9 witness: percentage closure for a 100 MW wind project at 150 km. -/
theorem C9_percentage_closure_witness :
    (0 : ℚ) < 100 ∧
    percSum (calculateCapex "wind" 100 150) = 100 ∧
    percSum (calculateOpex "wind" 100) = 100 :=
  ⟨by norm_num,
    (C9_percentage_closure "wind" 100 150 (by norm_num)).1 (Or.inr (Or.inl rfl)),
    (C9_percentage_closure "wind" 100 150 (by norm_num)).2⟩

/-- C10 counterexample: the claim says two runs on equal inputs produce
identical metrics.  `calculate_realistic_metrics` consumes a
`random.random()` sample in its wind branch: on the very same 100 MW wind
request, the sample 0 yields capacity factor 0.288 while the sample 0.5
yields 0.32, so the two runs return different metrics. -/
theorem C10_wind_metrics_random :
    (calculateRealisticMetrics 0 ⟨100, "wind", 40, none⟩).capacity_factor = 36/125 ∧
    (calculateRealisticMetrics (1/2) ⟨100, "wind", 40, none⟩).capacity_factor = 8/25 ∧
    calculateRealisticMetrics 0 ⟨100, "wind", 40, none⟩
      ≠ calculateRealisticMetrics (1/2) ⟨100, "wind", 40, none⟩ := by
  have h0 : (calculateRealisticMetrics 0 ⟨100, "wind", 40, none⟩).capacity_factor
      = 36/125 := by
    simp [calculateRealisticMetrics, min_def, max_def]
    norm_num
  have h1 : (calculateRealisticMetrics (1/2) ⟨100, "wind", 40, none⟩).capacity_factor
      = 8/25 := by
    simp [calculateRealisticMetrics, min_def, max_def]
    norm_num
  refine ⟨h0, h1, fun hEq => ?_⟩
  rw [hEq, h1] at h0
  norm_num at h0

/-- C10 amended: for every resource type other than "wind",
`calculate_realistic_metrics` ignores the random sample, so any two runs on
equal inputs agree on every metric; the wind branch alone is randomized. -/
theorem C10_deterministic_unless_wind (rho1 rho2 : ℚ) (req : ReportRequest)
    (h : req.resource_type ≠ "wind") :
    calculateRealisticMetrics rho1 req = calculateRealisticMetrics rho2 req := by
  by_cases hs : req.resource_type = "solar" <;>
    simp [calculateRealisticMetrics, hs, h]

/-- C10 witness: determinism on a concrete solar request under two different
random samples. -/
theorem C10_deterministic_unless_wind_witness :
    (ReportRequest.mk 100 "solar" 10 none).resource_type ≠ "wind" ∧
    calculateRealisticMetrics 0 ⟨100, "solar", 10, none⟩
      = calculateRealisticMetrics 1 ⟨100, "solar", 10, none⟩ :=
  ⟨by decide, C10_deterministic_unless_wind 0 1 ⟨100, "solar", 10, none⟩ (by decide)⟩

end GeoSpark
